import Mathlib

/-
  Verification development for the DXGI screen-region capture engine
  (src/capture.rs).

  The engine is shallowly embedded: the `DxgiCapture` struct becomes a Lean
  structure, and the Windows/DXGI API calls that the code performs become an
  explicit environment record whose fields say how each external call would
  respond.  Every function returns, besides its `Result`, the updated state
  and a trace of GPU-side events (`GpuEvent`) so that properties about
  "no GPU work", "released on every path", or "allocated exactly once" can
  be stated as properties of the trace.

  u32 arithmetic that can overflow is modelled as arithmetic modulo 2^32
  (release-mode wrapping semantics).  The `usize` arithmetic sizing the heap
  buffers is modelled exactly (64-bit overflow there would need rectangles
  with at least 2^60 pixels and is not modelled).
-/

namespace DxgiScreenGrab

/-- The three DXGI pixel formats the engine ever uses (src/capture.rs lines
99-103; the initial value of `chosen_format` is also one of these). -/
inductive DXGI_FORMAT where
  | B8G8R8A8_UNORM
  | R8G8B8A8_UNORM
  | R16G16B16A16_FLOAT
  deriving DecidableEq, Repr

/-- HRESULT code DXGI_ERROR_ACCESS_LOST (0x887A0026). -/
def DXGI_ERROR_ACCESS_LOST : Nat := 0x887A0026

/-- HRESULT code DXGI_ERROR_DEVICE_REMOVED (0x887A0005). -/
def DXGI_ERROR_DEVICE_REMOVED : Nat := 0x887A0005

/-- HRESULT code DXGI_ERROR_DEVICE_RESET (0x887A0007). -/
def DXGI_ERROR_DEVICE_RESET : Nat := 0x887A0007

/-- HRESULT code DXGI_ERROR_SESSION_DISCONNECTED (0x887A0028). -/
def DXGI_ERROR_SESSION_DISCONNECTED : Nat := 0x887A0028

/-- HRESULT code DXGI_ERROR_WAIT_TIMEOUT (0x887A0027): the failing status
with which a zero-timeout `AcquireNextFrame` reports that no new frame is
available yet.  The code never names it, so it takes the generic
acquisition-error path of src/capture.rs line 243. -/
def DXGI_ERROR_WAIT_TIMEOUT : Nat := 0x887A0027

/-- The recognized transient device-loss codes (src/capture.rs lines 224-227). -/
def isTransientCode (c : Nat) : Bool :=
  c == DXGI_ERROR_ACCESS_LOST || c == DXGI_ERROR_DEVICE_REMOVED ||
  c == DXGI_ERROR_DEVICE_RESET || c == DXGI_ERROR_SESSION_DISCONNECTED

/-- The error values the engine can return.  The Rust code returns boxed
string errors; each distinct error site is mapped to one constructor:
`validationError` = line 198, `deviceInitError` = line 80 (the paired
context failure at line 81 cannot fire separately, since a successful
`D3D11CreateDevice` fills both out-parameters), `comError` = the propagated
`?` failures of the casts / `GetAdapter` / `EnumOutputs` / `GetDesc`,
`duplicationError` = line 123, `allocationError` = `CreateTexture2D` failure
(line 174), `acquireError code` = line 243 carrying the HRESULT of the
failed `AcquireNextFrame`, `castFrameError` = the `?` at line 260,
`mapError` = `Map` failure (line 303). -/
inductive CaptureError where
  | validationError
  | deviceInitError
  | comError
  | duplicationError
  | allocationError
  | acquireError (code : Nat)
  | castFrameError
  | mapError
  deriving DecidableEq, Repr

/-- Observable GPU-side actions, recorded as a trace.  `initDuplication`
marks an entry into `initialize_duplication` (one per (re)initialization
attempt); the others correspond to the D3D11/DXGI calls the code issues. -/
inductive GpuEvent where
  | initDuplication
  | createDevice
  | duplicateOutput (fmt : DXGI_FORMAT)
  | createTexture (w h : Nat)
  | acquireNextFrame
  | releaseFrame
  | copySubresourceRegion (left top width height : Nat)
  | mapTexture
  | unmapTexture
  deriving DecidableEq, Repr

/-- The engine state: the fields of `struct DxgiCapture` (src/capture.rs
lines 12-28).  COM handles carry no data the embedded code inspects beyond
presence, so they are modelled as `Option Unit`. -/
structure DxgiCapture where
  duplication : Option Unit
  d3d_device : Option Unit
  d3d_context : Option Unit
  dxgi_output5 : Option Unit
  roi_texture : Option Unit
  output_width : Nat
  output_height : Nat
  chosen_format : DXGI_FORMAT
  roi_cached_width : Nat
  roi_cached_height : Nat
  deriving DecidableEq, Repr

/-- The modulus of u32 arithmetic, 2^32. -/
def U32_MOD : Nat := 4294967296

/-- The Rust cast `(a - b) as u32` where `a`, `b` are the i32 desktop coordinates
(src/capture.rs lines 95-96): the i32 difference reinterpreted mod 2^32. -/
def i32_sub_as_u32 (a b : Int) : Nat := ((a - b) % (U32_MOD : Int)).toNat

/-- How the external API responds during one run of
`initialize_duplication`: whether each call succeeds, the desktop
coordinates `GetDesc` reports, and which formats `DuplicateOutput1`
accepts. -/
structure InitEnv where
  createDeviceOk : Bool
  castDeviceOk : Bool
  getAdapterOk : Bool
  enumOutputsOk : Bool
  castOutput5Ok : Bool
  getDescOk : Bool
  descLeft : Int
  descTop : Int
  descRight : Int
  descBottom : Int
  duplAccepts : DXGI_FORMAT → Bool

/-- The candidate formats in the order the code tries them
(src/capture.rs lines 99-103). -/
def supported_formats : List DXGI_FORMAT :=
  [DXGI_FORMAT.B8G8R8A8_UNORM, DXGI_FORMAT.R8G8B8A8_UNORM,
   DXGI_FORMAT.R16G16B16A16_FLOAT]

/-- The `DuplicateOutput1` fallback loop (src/capture.rs lines 105-121):
try each format in order, stop at the first accepted one; record one
`duplicateOutput` event per attempt. -/
def tryFormats : List DXGI_FORMAT → (DXGI_FORMAT → Bool) →
    Option DXGI_FORMAT × List GpuEvent
  | [], _ => (none, [])
  | f :: rest, accepts =>
      if accepts f then (some f, [GpuEvent.duplicateOutput f])
      else
        let r := tryFormats rest accepts
        (r.1, GpuEvent.duplicateOutput f :: r.2)

/-- The function `release_resources` (src/capture.rs lines 186-194): drops the five
handles and zeroes the ROI cache; `output_width`, `output_height` and
`chosen_format` are left as they are. -/
def release_resources (s : DxgiCapture) : DxgiCapture :=
  { s with duplication := none, roi_texture := none, dxgi_output5 := none,
           d3d_context := none, d3d_device := none,
           roi_cached_width := 0, roi_cached_height := 0 }

/-- The function `initialize_duplication` (src/capture.rs lines 50-136).  Clears the old
resources, creates the device, walks the cast / adapter / output / desc
chain, stores the new output dimensions, negotiates a format with
`tryFormats`, and only then installs the four handles as a group and zeroes
the ROI cache.  Note that `output_width` / `output_height` are written
before duplication is attempted, so they survive a later failure of the
format loop. -/
def initialize_duplication (s : DxgiCapture) (env : InitEnv) :
    Except CaptureError Unit × DxgiCapture × List GpuEvent :=
  let s1 := release_resources s
  let evs : List GpuEvent := [GpuEvent.initDuplication, GpuEvent.createDevice]
  if !env.createDeviceOk then (Except.error CaptureError.deviceInitError, s1, evs)
  else if !env.castDeviceOk then (Except.error CaptureError.comError, s1, evs)
  else if !env.getAdapterOk then (Except.error CaptureError.comError, s1, evs)
  else if !env.enumOutputsOk then (Except.error CaptureError.comError, s1, evs)
  else if !env.castOutput5Ok then (Except.error CaptureError.comError, s1, evs)
  else if !env.getDescOk then (Except.error CaptureError.comError, s1, evs)
  else
    let s2 := { s1 with
      output_width := i32_sub_as_u32 env.descRight env.descLeft,
      output_height := i32_sub_as_u32 env.descBottom env.descTop }
    let tf := tryFormats supported_formats env.duplAccepts
    match tf.1 with
    | none => (Except.error CaptureError.duplicationError, s2, evs ++ tf.2)
    | some fmt =>
        (Except.ok (),
          { s2 with
            d3d_device := some (), d3d_context := some (),
            dxgi_output5 := some (), duplication := some (),
            chosen_format := fmt,
            roi_cached_width := 0, roi_cached_height := 0 },
          evs ++ tf.2)

/-- The function `ensure_roi_texture` (src/capture.rs lines 139-183).  No-op when a
texture exists with matching cached dimensions.  Otherwise the old texture
is dropped first (line 148); creation is attempted only when a device is
present (the `if let` at line 169), and a creation failure propagates
before the cache is updated, so on failure the cache keeps its old values
while the texture is already gone. -/
def ensure_roi_texture (s : DxgiCapture) (createTextureOk : Bool)
    (width height : Nat) :
    Except CaptureError Unit × DxgiCapture × List GpuEvent :=
  if s.roi_texture.isSome ∧ s.roi_cached_width = width ∧
      s.roi_cached_height = height then
    (Except.ok (), s, [])
  else
    let s1 := { s with roi_texture := none }
    match s1.d3d_device with
    | some _ =>
        if createTextureOk then
          (Except.ok (),
            { s1 with roi_texture := some (), roi_cached_width := width,
                      roi_cached_height := height },
            [GpuEvent.createTexture width height])
        else
          (Except.error CaptureError.allocationError, s1,
            [GpuEvent.createTexture width height])
    | none =>
        (Except.ok (),
          { s1 with roi_cached_width := width, roi_cached_height := height },
          [])

/-- Outcome of the zero-timeout `AcquireNextFrame` poll: success with a
frame resource, success with no resource, or failure with an HRESULT.
The `okNone` outcome drives the defensive zero-buffer branch of
src/capture.rs lines 247-256; the DXGI contract itself reports "no new
frame yet" as the failing HRESULT DXGI_ERROR_WAIT_TIMEOUT and sets the
resource on every success, so `okNone` does not occur against the real
API. -/
inductive AcquireOutcome where
  | okSome
  | okNone
  | err (code : Nat)
  deriving DecidableEq, Repr

/-- How the external API responds during one `capture_region` call:
`initEnv1` answers the lazy initialization at line 203, `initEnv2` the
recovery reinitialization at line 230, `createTexOk1` / `createTexOk2` the
two possible `CreateTexture2D` calls (lines 207 and 233), then the acquire
outcome, the frame-to-texture cast (line 260), the `Map` call, and the
mapped staging memory (`RowPitch` plus a byte at each offset from the
mapped base pointer). -/
structure CapEnv where
  initEnv1 : InitEnv
  initEnv2 : InitEnv
  createTexOk1 : Bool
  createTexOk2 : Bool
  acquire : AcquireOutcome
  castFrameOk : Bool
  mapOk : Bool
  rowPitch : Nat
  mem : Nat → Nat

/-- Lines 260-326 of src/capture.rs: the path taken once a frame resource was
obtained.  The `?` on the cast at line 260 returns *before* the
`ReleaseFrame` at lines 287-291, so no `releaseFrame` event is recorded on
that path.  The copy, release, map and unmap calls are guarded by the same
`if let` tests as in the source; when the map guard fails the code reads
rows through the zero-initialized `D3D11_MAPPED_SUBRESOURCE` (null base
pointer, pitch 0) — that read is modelled as zero bytes and is unreachable
whenever the session handles and the ROI texture are present. -/
def readbackPhase (s : DxgiCapture) (env : CapEnv)
    (left top width height : Nat) :
    Except CaptureError (List Nat) × DxgiCapture × List GpuEvent :=
  if !env.castFrameOk then
    (Except.error CaptureError.castFrameError, s, [])
  else
    let copyEvs : List GpuEvent :=
      if s.d3d_context.isSome ∧ s.roi_texture.isSome then
        [GpuEvent.copySubresourceRegion left top width height]
      else []
    let relEvs : List GpuEvent :=
      if s.duplication.isSome then [GpuEvent.releaseFrame] else []
    if s.d3d_context.isSome ∧ s.roi_texture.isSome then
      if env.mapOk then
        let buffer := (List.range height).flatMap (fun y =>
          (List.range (width * 4)).map (fun x => env.mem (y * env.rowPitch + x)))
        (Except.ok buffer, s,
          copyEvs ++ relEvs ++ [GpuEvent.mapTexture, GpuEvent.unmapTexture])
      else
        (Except.error CaptureError.mapError, s,
          copyEvs ++ relEvs ++ [GpuEvent.mapTexture])
    else
      (Except.ok (List.replicate (height * width * 4) 0), s, copyEvs ++ relEvs)

/-- Lines 209-257 of src/capture.rs plus the dispatch into the readback: the
acquisition itself, the transient-recovery branch (reinitialize once, then
recreate the ROI texture, then still report the original acquire error),
the fatal branch, and the "no resource" branch that releases the frame slot
and returns a zero-filled buffer of the requested size. -/
def acquirePhase (s : DxgiCapture) (env : CapEnv)
    (left top width height : Nat) :
    Except CaptureError (List Nat) × DxgiCapture × List GpuEvent :=
  match env.acquire with
  | AcquireOutcome.err code =>
      if isTransientCode code then
        let ini := initialize_duplication s env.initEnv2
        match ini.1 with
        | Except.ok _ =>
            let ens := ensure_roi_texture ini.2.1 env.createTexOk2 width height
            match ens.1 with
            | Except.ok _ =>
                (Except.error (CaptureError.acquireError code), ens.2.1,
                  GpuEvent.acquireNextFrame :: (ini.2.2 ++ ens.2.2))
            | Except.error e =>
                (Except.error e, ens.2.1,
                  GpuEvent.acquireNextFrame :: (ini.2.2 ++ ens.2.2))
        | Except.error e =>
            (Except.error e, ini.2.1, GpuEvent.acquireNextFrame :: ini.2.2)
      else
        (Except.error (CaptureError.acquireError code), s,
          [GpuEvent.acquireNextFrame])
  | AcquireOutcome.okNone =>
      let relEvs : List GpuEvent :=
        if s.duplication.isSome then [GpuEvent.releaseFrame] else []
      (Except.ok (List.replicate (height * width * 4) 0), s,
        GpuEvent.acquireNextFrame :: relEvs)
  | AcquireOutcome.okSome =>
      let r := readbackPhase s env left top width height
      (r.1, r.2.1, GpuEvent.acquireNextFrame :: r.2.2)

/-- The lazy-initialization step at the top of `capture_region`
(src/capture.rs lines 202-204): reinitialize only when the duplication
handle is absent, otherwise do nothing. -/
def captureInit (s : DxgiCapture) (env : CapEnv) :
    Except CaptureError Unit × DxgiCapture × List GpuEvent :=
  if s.duplication.isNone then initialize_duplication s env.initEnv1
  else (Except.ok (), s, [])

/-- The function `capture_region` (src/capture.rs lines 196-327).  Bounds validation
first (u32 sums wrap mod 2^32), then lazy initialization if the duplication
handle is absent, then the ROI texture, then the acquire / readback phase. -/
def capture_region (s : DxgiCapture) (env : CapEnv)
    (left top width height : Nat) :
    Except CaptureError (List Nat) × DxgiCapture × List GpuEvent :=
  if (left + width) % U32_MOD > s.output_width ∨
      (top + height) % U32_MOD > s.output_height then
    (Except.error CaptureError.validationError, s, [])
  else
    let ini := captureInit s env
    match ini.1 with
    | Except.error e => (Except.error e, ini.2.1, ini.2.2)
    | Except.ok _ =>
        let ens := ensure_roi_texture ini.2.1 env.createTexOk1 width height
        match ens.1 with
        | Except.error e => (Except.error e, ens.2.1, ini.2.2 ++ ens.2.2)
        | Except.ok _ =>
            let r := acquirePhase ens.2.1 env left top width height
            (r.1, r.2.1, ini.2.2 ++ ens.2.2 ++ r.2.2)

/-- The field values `DxgiCapture::new` starts from (src/capture.rs lines
32-43), before the first `initialize_duplication`. -/
def initialState : DxgiCapture :=
  { duplication := none, d3d_device := none, d3d_context := none,
    dxgi_output5 := none, roi_texture := none,
    output_width := 0, output_height := 0,
    chosen_format := DXGI_FORMAT.B8G8R8A8_UNORM,
    roi_cached_width := 0, roi_cached_height := 0 }

/-- The constructor `DxgiCapture::new` (src/capture.rs lines 31-47): build the blank state
and run the first initialization; on failure the engine is not returned. -/
def new (env : InitEnv) : Except CaptureError DxgiCapture × List GpuEvent :=
  match initialize_duplication initialState env with
  | (Except.ok _, s, evs) => (Except.ok s, evs)
  | (Except.error e, _, evs) => (Except.error e, evs)

/-! ### Concrete fixtures used by witnesses and counterexamples -/

/-- A fully initialized engine state used as a concrete fixture: 1920×1080
output, B8G8R8A8 format, ROI texture present and cached at 10×10. -/
def sInit : DxgiCapture :=
  { duplication := some (), d3d_device := some (), d3d_context := some (),
    dxgi_output5 := some (), roi_texture := some (),
    output_width := 1920, output_height := 1080,
    chosen_format := DXGI_FORMAT.B8G8R8A8_UNORM,
    roi_cached_width := 10, roi_cached_height := 10 }

/-- An `InitEnv` in which every call succeeds, `GetDesc` reports a
2560×1440 output, and every candidate format is accepted. -/
def envInitOk : InitEnv :=
  { createDeviceOk := true, castDeviceOk := true, getAdapterOk := true,
    enumOutputsOk := true, castOutput5Ok := true, getDescOk := true,
    descLeft := 0, descTop := 0, descRight := 2560, descBottom := 1440,
    duplAccepts := fun _ => true }

/-- An `InitEnv` that fails at format negotiation: the device / output /
desc chain succeeds (reporting 2560×1440) but no candidate format is
accepted by `DuplicateOutput1`. -/
def envInitNoFormat : InitEnv :=
  { envInitOk with duplAccepts := fun _ => false }

/-- A capture environment for the happy path: no reinitialization needed,
a frame is acquired, cast and mapped, row pitch 64, and the mapped byte at
offset `a` is `a % 251`. -/
def envHappy : CapEnv :=
  { initEnv1 := envInitOk, initEnv2 := envInitOk,
    createTexOk1 := true, createTexOk2 := true,
    acquire := AcquireOutcome.okSome, castFrameOk := true, mapOk := true,
    rowPitch := 64, mem := fun a => a % 251 }

/-- A capture environment in which `AcquireNextFrame` succeeds but yields
no resource, the outcome the code answers with a zero-filled buffer
(src/capture.rs lines 247-256). -/
def envNoFrame : CapEnv := { envHappy with acquire := AcquireOutcome.okNone }

/-- A capture environment in which the zero-wait poll finds no new frame
available: `AcquireNextFrame` fails with DXGI_ERROR_WAIT_TIMEOUT. -/
def envWaitTimeout : CapEnv :=
  { envHappy with acquire := AcquireOutcome.err DXGI_ERROR_WAIT_TIMEOUT }

/-- An environment where a frame is acquired but the cast of the frame
resource to a 2D texture (line 260) fails. -/
def envCastFail : CapEnv := { envHappy with castFrameOk := false }

/-- An environment whose acquisition fails with the transient ACCESS_LOST
code while every recovery step succeeds. -/
def envTransient : CapEnv :=
  { envHappy with acquire := AcquireOutcome.err DXGI_ERROR_ACCESS_LOST }

/-- Like `envTransient`, but the `CreateTexture2D` of the ROI recreation
that follows the recovery reinitialization fails. -/
def envTransientAllocFail : CapEnv :=
  { envHappy with
    acquire := AcquireOutcome.err DXGI_ERROR_ACCESS_LOST,
    createTexOk2 := false }

/-- The handle-group invariant of the session bundle: the duplication
handle is present exactly when the device, context and output handles
are. -/
def handleInv (s : DxgiCapture) : Prop :=
  (s.duplication.isSome ↔ s.d3d_device.isSome) ∧
  (s.duplication.isSome ↔ s.d3d_context.isSome) ∧
  (s.duplication.isSome ↔ s.dxgi_output5.isSome)

/-- A capture environment whose recovery reinitialization obtains a new
device and a 2560×1440 output descriptor but then fails format
negotiation. -/
def envTransientReinitNoFormat : CapEnv :=
  { envHappy with
    acquire := AcquireOutcome.err DXGI_ERROR_ACCESS_LOST,
    initEnv2 := envInitNoFormat }

/-- Recognizer for staging-texture allocation events. -/
def isCreateTex : GpuEvent → Bool
  | GpuEvent.createTexture _ _ => true
  | _ => false

/-- A format-acceptance function that rejects the first candidate and
accepts only the alternate 8-bit channel order. -/
def acceptsOnlyR8 : DXGI_FORMAT → Bool
  | DXGI_FORMAT.R8G8B8A8_UNORM => true
  | _ => false

/-- An `InitEnv` whose output only accepts R8G8B8A8_UNORM duplication. -/
def envInitR8 : InitEnv := { envInitOk with duplAccepts := acceptsOnlyR8 }

/-! ### Helper lemmas -/

theorem range_flatMap_replicate {α : Type} (n m : Nat) (a : α) :
    (List.range n).flatMap (fun _ => List.replicate m a) =
      List.replicate (n * m) a := by
  induction n with
  | zero => simp
  | succ k ih =>
      rw [List.range_succ, List.flatMap_append, ih, Nat.succ_mul,
        List.replicate_add]
      simp

theorem range_flatMap_length {α : Type} (n m : Nat) (rows : Nat → List α)
    (h : ∀ y, (rows y).length = m) :
    ((List.range n).flatMap rows).length = n * m := by
  induction n with
  | zero => simp
  | succ k ih =>
      rw [List.range_succ, List.flatMap_append]
      simp [ih, h, Nat.succ_mul]

theorem tryFormats_fst (l : List DXGI_FORMAT) (accepts : DXGI_FORMAT → Bool) :
    (tryFormats l accepts).1 = l.find? accepts := by
  induction l with
  | nil => rfl
  | cons f rest ih =>
      unfold tryFormats
      by_cases h : accepts f
      · simp [h, List.find?]
      · simp [h, List.find?, ih]

/-- The only outcomes of `initialize_duplication`, by result value. -/
theorem initialize_duplication_cases (s : DxgiCapture) (env : InitEnv) :
    (initialize_duplication s env).1 = Except.ok () ∨
    (initialize_duplication s env).1 = Except.error CaptureError.deviceInitError ∨
    (initialize_duplication s env).1 = Except.error CaptureError.comError ∨
    (initialize_duplication s env).1 = Except.error CaptureError.duplicationError := by
  unfold initialize_duplication
  repeat' split
  all_goals try simp
  all_goals cases htf : (tryFormats supported_formats env.duplAccepts).1 <;> simp [htf]

/-- The only outcomes of `ensure_roi_texture`, by result value. -/
theorem ensure_roi_texture_cases (s : DxgiCapture) (ok : Bool) (w h : Nat) :
    (ensure_roi_texture s ok w h).1 = Except.ok () ∨
    (ensure_roi_texture s ok w h).1 = Except.error CaptureError.allocationError := by
  unfold ensure_roi_texture
  repeat' split
  all_goals try simp
  all_goals cases hd : s.d3d_device <;> simp [hd]

/-- On failure, `initialize_duplication` leaves every handle cleared: the
handles are only installed as a group after every step has succeeded. -/
theorem initialize_duplication_error_state (s : DxgiCapture) (env : InitEnv)
    (e : CaptureError) (h : (initialize_duplication s env).1 = Except.error e) :
    ((initialize_duplication s env).2.1).duplication = none ∧
    ((initialize_duplication s env).2.1).d3d_device = none ∧
    ((initialize_duplication s env).2.1).d3d_context = none ∧
    ((initialize_duplication s env).2.1).dxgi_output5 = none ∧
    ((initialize_duplication s env).2.1).roi_texture = none := by
  obtain ⟨cd, cst, ga, eo, co, gd, dl, dt, dr, db, da⟩ := env
  cases cd <;> cases cst <;> cases ga <;> cases eo <;> cases co <;> cases gd <;>
    simp_all [initialize_duplication, release_resources]
  all_goals cases htf : (tryFormats supported_formats da).1 <;> simp_all

/-- On success, `initialize_duplication` installs the four handles as a
group, drops the ROI texture and zeroes the ROI cache. -/
theorem initialize_duplication_ok_state (s : DxgiCapture) (env : InitEnv)
    (h : (initialize_duplication s env).1 = Except.ok ()) :
    ((initialize_duplication s env).2.1).duplication = some () ∧
    ((initialize_duplication s env).2.1).d3d_device = some () ∧
    ((initialize_duplication s env).2.1).d3d_context = some () ∧
    ((initialize_duplication s env).2.1).dxgi_output5 = some () ∧
    ((initialize_duplication s env).2.1).roi_texture = none ∧
    ((initialize_duplication s env).2.1).roi_cached_width = 0 ∧
    ((initialize_duplication s env).2.1).roi_cached_height = 0 := by
  obtain ⟨cd, cst, ga, eo, co, gd, dl, dt, dr, db, da⟩ := env
  cases cd <;> cases cst <;> cases ga <;> cases eo <;> cases co <;> cases gd <;>
    simp_all [initialize_duplication, release_resources]
  all_goals cases htf : (tryFormats supported_formats da).1 <;> simp_all

/-- The format loop records only `duplicateOutput` events. -/
theorem tryFormats_count_init (l : List DXGI_FORMAT)
    (accepts : DXGI_FORMAT → Bool) :
    ((tryFormats l accepts).2).count GpuEvent.initDuplication = 0 := by
  induction l with
  | nil => rfl
  | cons f rest ih =>
      unfold tryFormats
      by_cases h : accepts f <;> simp [h, List.count_cons, ih]

/-- Each run of `initialize_duplication` records exactly one
(re)initialization attempt. -/
theorem initialize_duplication_count_init (s : DxgiCapture) (env : InitEnv) :
    ((initialize_duplication s env).2.2).count GpuEvent.initDuplication = 1 := by
  obtain ⟨cd, cst, ga, eo, co, gd, dl, dt, dr, db, da⟩ := env
  cases cd <;> cases cst <;> cases ga <;> cases eo <;> cases co <;> cases gd <;>
    simp_all [initialize_duplication, release_resources, List.count_cons]
  all_goals cases htf : (tryFormats supported_formats da).1 <;>
    simp_all [List.count_append, List.count_cons, tryFormats_count_init]

/-- The ROI step records no (re)initialization attempt. -/
theorem ensure_roi_texture_count_init (s : DxgiCapture) (ok : Bool)
    (w h : Nat) :
    ((ensure_roi_texture s ok w h).2.2).count GpuEvent.initDuplication = 0 := by
  unfold ensure_roi_texture
  repeat' split
  all_goals try simp
  all_goals cases hd : s.d3d_device <;> simp [hd]

/-- The ROI step never touches the session handles, the output
dimensions or the negotiated format. -/
theorem ensure_roi_texture_preserves (s : DxgiCapture) (ok : Bool)
    (w h : Nat) :
    (ensure_roi_texture s ok w h).2.1.duplication = s.duplication ∧
    (ensure_roi_texture s ok w h).2.1.d3d_device = s.d3d_device ∧
    (ensure_roi_texture s ok w h).2.1.d3d_context = s.d3d_context ∧
    (ensure_roi_texture s ok w h).2.1.dxgi_output5 = s.dxgi_output5 ∧
    (ensure_roi_texture s ok w h).2.1.output_width = s.output_width ∧
    (ensure_roi_texture s ok w h).2.1.output_height = s.output_height ∧
    (ensure_roi_texture s ok w h).2.1.chosen_format = s.chosen_format := by
  unfold ensure_roi_texture
  repeat' split
  all_goals try simp
  all_goals cases hd : s.d3d_device <;> simp [hd]

/-- When `ensure_roi_texture` succeeds and a device is present, the
resulting state holds a texture cached at exactly the requested size. -/
theorem ensure_roi_texture_ok_state (s : DxgiCapture) (ok : Bool) (w h : Nat)
    (hdev : s.d3d_device.isSome)
    (hok : (ensure_roi_texture s ok w h).1 = Except.ok ()) :
    (ensure_roi_texture s ok w h).2.1.roi_texture = some () ∧
    (ensure_roi_texture s ok w h).2.1.roi_cached_width = w ∧
    (ensure_roi_texture s ok w h).2.1.roi_cached_height = h := by
  cases hr : s.roi_texture <;> cases hd : s.d3d_device <;> cases ok <;>
    by_cases hw : s.roi_cached_width = w <;>
    by_cases hh : s.roi_cached_height = h <;>
    simp_all [ensure_roi_texture]

/-- The possible results of the lazy-initialization step at the top of
`capture_region` (lines 202-204). -/
theorem captureInit_cases (s : DxgiCapture) (env : CapEnv) :
    (captureInit s env).1 = Except.ok () ∨
    (captureInit s env).1 = Except.error CaptureError.deviceInitError ∨
    (captureInit s env).1 = Except.error CaptureError.comError ∨
    (captureInit s env).1 = Except.error CaptureError.duplicationError := by
  unfold captureInit
  by_cases hd : s.duplication.isNone = true
  · rw [if_pos hd]
    exact initialize_duplication_cases s env.initEnv1
  · rw [if_neg hd]
    left
    rfl

/-- When the duplication handle is present, the lazy-initialization step is
a no-op. -/
theorem captureInit_of_present (s : DxgiCapture) (env : CapEnv)
    (hdup : s.duplication.isSome) :
    captureInit s env = (Except.ok (), s, ([] : List GpuEvent)) := by
  unfold captureInit
  have hdn : s.duplication.isNone = false := by
    cases hd : s.duplication <;> simp_all
  rw [if_neg (show ¬(s.duplication.isNone = true) by simp [hdn])]

theorem readbackPhase_ne_validation (s : DxgiCapture) (env : CapEnv)
    (l t w h : Nat) :
    (readbackPhase s env l t w h).1 ≠
      Except.error CaptureError.validationError := by
  unfold readbackPhase
  repeat' split
  all_goals simp

theorem acquirePhase_ne_validation (s : DxgiCapture) (env : CapEnv)
    (l t w h : Nat) :
    (acquirePhase s env l t w h).1 ≠
      Except.error CaptureError.validationError := by
  unfold acquirePhase
  cases hacq : env.acquire with
  | okSome => exact readbackPhase_ne_validation s env l t w h
  | okNone => simp
  | err code =>
      by_cases ht : isTransientCode code = true
      · simp only [ht, if_true]
        rcases initialize_duplication_cases s env.initEnv2 with hi | hi | hi | hi
        · simp only [hi]
          rcases ensure_roi_texture_cases
              (initialize_duplication s env.initEnv2).2.1 env.createTexOk2 w h
            with he | he <;> simp [he]
        · simp [hi]
        · simp [hi]
        · simp [hi]
      · simp [ht]

theorem capture_region_inbounds_ne_validation (s : DxgiCapture)
    (env : CapEnv) (l t w h : Nat)
    (h1 : (l + w) % U32_MOD ≤ s.output_width)
    (h2 : (t + h) % U32_MOD ≤ s.output_height) :
    (capture_region s env l t w h).1 ≠
      Except.error CaptureError.validationError := by
  unfold capture_region
  have hno : ¬((l + w) % U32_MOD > s.output_width ∨
      (t + h) % U32_MOD > s.output_height) := by omega
  rw [if_neg hno]
  rcases captureInit_cases s env with hi | hi | hi | hi
  · simp only [hi]
    rcases ensure_roi_texture_cases
        (captureInit s env).2.1 env.createTexOk1 w h with he | he
    · simp only [he]
      exact acquirePhase_ne_validation _ env l t w h
    · simp only [he]
      simp
  · simp only [hi]
    simp
  · simp only [hi]
    simp
  · simp only [hi]
    simp

/-- C1 (amended: the validation sums are the wrapping 32-bit sums that u32
addition computes in the code).  If the wrapped sum of left and width
exceeds output_width, or the wrapped sum of top and height exceeds
output_height, capture_region fails with the validation error, leaves the
state untouched and performs no GPU work (empty event trace); whenever both
wrapped sums are within bounds, the call never fails with the validation
error. -/
theorem c1_validation_bounds (s : DxgiCapture) (env : CapEnv)
    (left top width height : Nat) :
    (((left + width) % U32_MOD > s.output_width ∨
      (top + height) % U32_MOD > s.output_height) →
      capture_region s env left top width height =
        (Except.error CaptureError.validationError, s, [])) ∧
    ((left + width) % U32_MOD ≤ s.output_width →
      (top + height) % U32_MOD ≤ s.output_height →
      (capture_region s env left top width height).1 ≠
        Except.error CaptureError.validationError) := by
  constructor
  · intro hout
    unfold capture_region
    rw [if_pos hout]
  · intro h1 h2
    exact capture_region_inbounds_ne_validation s env left top width height h1 h2

/-- C1, counterexample to the claim as stated (with true, non-wrapping
sums): on a 1920×1080 output, the request with left = 2^32 - 1, top = 0,
width = 1, height = 10 has true sum left + width = 2^32 > 1920, so the
claim demands a validation failure; the code's wrapping comparison computes
0 ≤ 1920 and the call instead succeeds (here the acquisition yields no
resource, so a zero-filled 40-byte buffer is returned). -/
theorem c1_overflow_counterexample :
    4294967295 + 1 > sInit.output_width ∧
    (capture_region sInit envNoFrame 4294967295 0 1 10).1 =
      Except.ok (List.replicate 40 0) := by
  constructor
  · decide
  · rfl

/-- Witness for c1_validation_bounds at concrete inputs: the 1900+100 wide
request of the spec's own example is rejected with no GPU work, and a
100×100 request at the origin is never rejected by validation. -/
theorem c1_witness :
    (((1900 + 100) % U32_MOD > sInit.output_width ∨
        (1000 + 100) % U32_MOD > sInit.output_height) ∧
      capture_region sInit envHappy 1900 1000 100 100 =
        (Except.error CaptureError.validationError, sInit, [])) ∧
    ((0 + 100) % U32_MOD ≤ sInit.output_width ∧
      (0 + 100) % U32_MOD ≤ sInit.output_height ∧
      (capture_region sInit envHappy 0 0 100 100).1 ≠
        Except.error CaptureError.validationError) := by
  refine ⟨⟨by decide, (c1_validation_bounds sInit envHappy 1900 1000 100 100).1
      (by decide)⟩,
    by decide, by decide,
    (c1_validation_bounds sInit envHappy 0 0 100 100).2 (by decide) (by decide)⟩

/-- C10: the bounds validation computes left + width and top + height in
wrapping 32-bit arithmetic with no overflow guard, so a rectangle whose
true sum is at least 2^32 (hence out of bounds for any u32 output width)
but whose wrapped sums do not exceed the output dimensions is not rejected
with the validation error. -/
theorem c10_wrapped_overflow_not_rejected (s : DxgiCapture) (env : CapEnv)
    (left top width height : Nat)
    (hov : U32_MOD ≤ left + width)
    (hw : s.output_width < U32_MOD)
    (h1 : (left + width) % U32_MOD ≤ s.output_width)
    (h2 : (top + height) % U32_MOD ≤ s.output_height) :
    left + width > s.output_width ∧
    (capture_region s env left top width height).1 ≠
      Except.error CaptureError.validationError :=
  ⟨by omega,
    capture_region_inbounds_ne_validation s env left top width height h1 h2⟩

/-- Witness for c10_wrapped_overflow_not_rejected: the concrete overflowing
request with left = 2^32 - 1 and width = 1 on the 1920×1080 fixture. -/
theorem c10_witness :
    U32_MOD ≤ 4294967295 + 1 ∧ sInit.output_width < U32_MOD ∧
    (4294967295 + 1) % U32_MOD ≤ sInit.output_width ∧
    (0 + 10) % U32_MOD ≤ sInit.output_height ∧
    (4294967295 + 1 > sInit.output_width ∧
      (capture_region sInit envNoFrame 4294967295 0 1 10).1 ≠
        Except.error CaptureError.validationError) := by
  refine ⟨by decide, by decide, by decide, by decide,
    c10_wrapped_overflow_not_rejected sInit envNoFrame 4294967295 0 1 10
      (by decide) (by decide) (by decide) (by decide)⟩

/-- Any buffer `readbackPhase` returns successfully is `h` rows of exactly
`w*4` bytes each, concatenated top to bottom. -/
theorem readbackPhase_ok_shape (s : DxgiCapture) (env : CapEnv)
    (l t w h : Nat) (buf : List Nat)
    (hok : (readbackPhase s env l t w h).1 = Except.ok buf) :
    buf.length = w * h * 4 ∧ ∃ rows : Nat → List Nat,
      (∀ y, (rows y).length = w * 4) ∧ buf = (List.range h).flatMap rows := by
  unfold readbackPhase at hok
  by_cases hcast : env.castFrameOk = true
  · rw [if_neg (by simp [hcast])] at hok
    by_cases hg : s.d3d_context.isSome = true ∧ s.roi_texture.isSome = true
    · rw [if_pos hg] at hok
      by_cases hm : env.mapOk = true
      · rw [if_pos hm] at hok
        have hb := Except.ok.inj hok
        subst hb
        refine ⟨?_, fun y => (List.range (w * 4)).map
            (fun x => env.mem (y * env.rowPitch + x)), fun y => by simp, rfl⟩
        rw [range_flatMap_length h (w * 4) _ (fun y => by simp)]
        ring
      · rw [if_neg hm] at hok
        simp at hok
    · rw [if_neg hg] at hok
      have hb := Except.ok.inj hok
      subst hb
      refine ⟨by rw [List.length_replicate]; ring,
        fun _ => List.replicate (w * 4) 0, fun y => by simp, ?_⟩
      rw [range_flatMap_replicate]
      congr 1
      ring
  · have hf : env.castFrameOk = false := by
      cases hc2 : env.castFrameOk <;> simp_all
    rw [if_pos (show (!env.castFrameOk) = true by simp [hf])] at hok
    simp at hok

/-- Any buffer `acquirePhase` returns successfully has the packed
rows-of-`w*4`-bytes shape. -/
theorem acquirePhase_ok_shape (s : DxgiCapture) (env : CapEnv)
    (l t w h : Nat) (buf : List Nat)
    (hok : (acquirePhase s env l t w h).1 = Except.ok buf) :
    buf.length = w * h * 4 ∧ ∃ rows : Nat → List Nat,
      (∀ y, (rows y).length = w * 4) ∧ buf = (List.range h).flatMap rows := by
  unfold acquirePhase at hok
  cases hacq : env.acquire with
  | okSome =>
      rw [hacq] at hok
      exact readbackPhase_ok_shape s env l t w h buf hok
  | okNone =>
      rw [hacq] at hok
      have hb := Except.ok.inj hok
      subst hb
      refine ⟨by rw [List.length_replicate]; ring,
        fun _ => List.replicate (w * 4) 0, fun y => by simp, ?_⟩
      rw [range_flatMap_replicate]
      congr 1
      ring
  | err code =>
      simp only [hacq] at hok
      by_cases ht : isTransientCode code = true
      · rw [if_pos ht] at hok
        rcases initialize_duplication_cases s env.initEnv2 with hi | hi | hi | hi
        · simp only [hi] at hok
          rcases ensure_roi_texture_cases
              (initialize_duplication s env.initEnv2).2.1 env.createTexOk2 w h
            with he | he <;> simp [he] at hok
        · simp [hi] at hok
        · simp [hi] at hok
        · simp [hi] at hok
      · rw [if_neg ht] at hok
        simp at hok

/-- A successful `capture_region` result is the result of `acquirePhase`
from some intermediate state. -/
theorem capture_region_ok_from_acquire (s : DxgiCapture) (env : CapEnv)
    (l t w h : Nat) (buf : List Nat)
    (hok : (capture_region s env l t w h).1 = Except.ok buf) :
    ∃ s2, (acquirePhase s2 env l t w h).1 = Except.ok buf := by
  unfold capture_region at hok
  split at hok
  · simp at hok
  · rcases captureInit_cases s env with hi | hi | hi | hi
    · simp only [hi] at hok
      rcases ensure_roi_texture_cases
          (captureInit s env).2.1 env.createTexOk1 w h with he | he
      · simp only [he] at hok
        exact ⟨_, hok⟩
      · simp only [he] at hok
        simp at hok
    · simp only [hi] at hok
      simp at hok
    · simp only [hi] at hok
      simp at hok
    · simp only [hi] at hok
      simp at hok

/-- C2: whenever capture_region succeeds on a rectangle fully inside the
output bounds, the returned buffer has length exactly width*height*4 and is
the top-to-bottom concatenation of height rows of exactly width*4 bytes
each, with no padding between rows. -/
theorem c2_success_buffer_shape (s : DxgiCapture) (env : CapEnv)
    (left top width height : Nat) (buf : List Nat)
    (hin1 : left + width ≤ s.output_width)
    (hin2 : top + height ≤ s.output_height)
    (hok : (capture_region s env left top width height).1 = Except.ok buf) :
    buf.length = width * height * 4 ∧ ∃ rows : Nat → List Nat,
      (∀ y, (rows y).length = width * 4) ∧
      buf = (List.range height).flatMap rows := by
  obtain ⟨s2, h2⟩ :=
    capture_region_ok_from_acquire s env left top width height buf hok
  exact acquirePhase_ok_shape s2 env left top width height buf h2

/-- Witness for c2_success_buffer_shape: the happy-path capture of a 2×3
rectangle at the origin of the 1920×1080 fixture. -/
theorem c2_witness :
    0 + 2 ≤ sInit.output_width ∧ 0 + 3 ≤ sInit.output_height ∧
    ((capture_region sInit envHappy 0 0 2 3).1 =
        Except.ok ((List.range 3).flatMap (fun y =>
          (List.range 8).map (fun x => (y * 64 + x) % 251))) ∧
      (((List.range 3).flatMap (fun y =>
          (List.range 8).map (fun x => (y * 64 + x) % 251))).length = 2 * 3 * 4 ∧
        ∃ rows : Nat → List Nat, (∀ y, (rows y).length = 2 * 4) ∧
          (List.range 3).flatMap (fun y =>
            (List.range 8).map (fun x => (y * 64 + x) % 251)) =
            (List.range 3).flatMap rows)) := by
  refine ⟨by decide, by decide, by rfl, ?_⟩
  exact c2_success_buffer_shape sInit envHappy 0 0 2 3 _ (by decide) (by decide)
    (by rfl)

/-- C3, failing execution: a zero-wait poll that finds no new frame
available reports it as the failing HRESULT DXGI_ERROR_WAIT_TIMEOUT.  That
code is not in the transient list of src/capture.rs lines 224-227, so the
call falls through to the generic acquisition-error return at line 243 and
fails — it does not return the zero-filled buffer of the requested size
that the claim requires.  (The zero-buffer branch at lines 247-256 runs
only when the poll succeeded yet produced no resource, an outcome the API
contract rules out.) -/
theorem c3_wait_timeout_is_error :
    isTransientCode DXGI_ERROR_WAIT_TIMEOUT = false ∧
    capture_region sInit envWaitTimeout 0 0 10 10 =
      (Except.error (CaptureError.acquireError DXGI_ERROR_WAIT_TIMEOUT),
        sInit, [GpuEvent.acquireNextFrame]) ∧
    (capture_region sInit envWaitTimeout 0 0 10 10).1 ≠
      Except.ok (List.replicate (10 * 10 * 4) 0) := by
  refine ⟨by decide, by rfl, ?_⟩
  have hval : (capture_region sInit envWaitTimeout 0 0 10 10).1 =
      Except.error (CaptureError.acquireError DXGI_ERROR_WAIT_TIMEOUT) := by
    rfl
  rw [hval]
  exact fun hcon => Except.noConfusion hcon

/-- C4, failing execution: when `AcquireNextFrame` yields a frame resource
but the cast of that resource to a texture fails, the `?` at line 260
returns before the `ReleaseFrame` at lines 287-291 is reached, so the call
exits with the cast error and the trace contains the acquisition but no
frame release: the obtained frame is not released on this exit path, which
contradicts the claim that the frame is released on every exit path
(including a failing texture cast). -/
theorem c4_frame_leak_on_cast_failure :
    capture_region sInit envCastFail 0 0 10 10 =
      (Except.error CaptureError.castFrameError, sInit,
        [GpuEvent.acquireNextFrame]) ∧
    GpuEvent.releaseFrame ∉ (capture_region sInit envCastFail 0 0 10 10).2.2 := by
  exact ⟨rfl, by decide⟩

/-- Lines 230-243 of src/capture.rs, split out: under a transient acquisition
failure, `acquirePhase` runs exactly one reinitialization followed by one
ROI recreation; if both succeed it reports the original acquire error with
the recovered state, and either step's failure is what gets propagated. -/
theorem acquirePhase_transient (s : DxgiCapture) (env : CapEnv)
    (l t w h code : Nat)
    (hacq : env.acquire = AcquireOutcome.err code)
    (ht : isTransientCode code = true) :
    ((initialize_duplication s env.initEnv2).1 = Except.ok () →
      (ensure_roi_texture (initialize_duplication s env.initEnv2).2.1
          env.createTexOk2 w h).1 = Except.ok () →
      (acquirePhase s env l t w h).1 =
        Except.error (CaptureError.acquireError code) ∧
      (acquirePhase s env l t w h).2.1 =
        (ensure_roi_texture (initialize_duplication s env.initEnv2).2.1
          env.createTexOk2 w h).2.1) ∧
    (∀ e, (initialize_duplication s env.initEnv2).1 = Except.error e →
      (acquirePhase s env l t w h).1 = Except.error e ∧
      (acquirePhase s env l t w h).2.1 =
        (initialize_duplication s env.initEnv2).2.1) ∧
    (∀ e, (initialize_duplication s env.initEnv2).1 = Except.ok () →
      (ensure_roi_texture (initialize_duplication s env.initEnv2).2.1
          env.createTexOk2 w h).1 = Except.error e →
      (acquirePhase s env l t w h).1 = Except.error e ∧
      (acquirePhase s env l t w h).2.1 =
        (ensure_roi_texture (initialize_duplication s env.initEnv2).2.1
          env.createTexOk2 w h).2.1) ∧
    ((acquirePhase s env l t w h).2.2).count GpuEvent.initDuplication = 1 := by
  have hcInit := initialize_duplication_count_init s env.initEnv2
  have hcEns := ensure_roi_texture_count_init
    (initialize_duplication s env.initEnv2).2.1 env.createTexOk2 w h
  unfold acquirePhase
  simp only [hacq]
  rw [if_pos ht]
  rcases initialize_duplication_cases s env.initEnv2 with hi | hi | hi | hi
  · simp only [hi]
    rcases ensure_roi_texture_cases
        (initialize_duplication s env.initEnv2).2.1 env.createTexOk2 w h
      with he | he
    · simp only [he]
      refine ⟨fun _ _ => ⟨by trivial, by trivial⟩, ?_, ?_, ?_⟩
      · intro e2 hcon
        simp at hcon
      · intro e2 _ hcon
        simp at hcon
      · simp [List.count_cons, List.count_append, hcInit, hcEns]
    · simp only [he]
      refine ⟨?_, ?_, ?_, ?_⟩
      · intro _ hcon
        simp at hcon
      · intro e2 hcon
        simp at hcon
      · intro e2 _ he2
        simp only [Except.error.injEq] at he2
        subst he2
        exact ⟨by trivial, by trivial⟩
      · simp [List.count_cons, List.count_append, hcInit, hcEns]
  all_goals (
    simp only [hi]
    refine ⟨?_, ?_, ?_, ?_⟩
    · intro hcon _
      simp at hcon
    · intro e2 he2
      simp only [Except.error.injEq] at he2
      subst he2
      exact ⟨by trivial, by trivial⟩
    · intro e2 hcon _
      simp at hcon
    · simp [List.count_cons, hcInit])

/-- When the rectangle passes validation, the session is present and the
ROI step succeeds, `capture_region` is the acquire phase run from the
post-ensure state, with the ensure events prefixed to the trace. -/
theorem capture_region_after_ensure (s : DxgiCapture) (env : CapEnv)
    (l t w h : Nat)
    (hin1 : (l + w) % U32_MOD ≤ s.output_width)
    (hin2 : (t + h) % U32_MOD ≤ s.output_height)
    (hdup : s.duplication.isSome)
    (hens : (ensure_roi_texture s env.createTexOk1 w h).1 = Except.ok ()) :
    capture_region s env l t w h =
      ((acquirePhase (ensure_roi_texture s env.createTexOk1 w h).2.1
          env l t w h).1,
        (acquirePhase (ensure_roi_texture s env.createTexOk1 w h).2.1
          env l t w h).2.1,
        (ensure_roi_texture s env.createTexOk1 w h).2.2 ++
          (acquirePhase (ensure_roi_texture s env.createTexOk1 w h).2.1
            env l t w h).2.2) := by
  have hci := captureInit_of_present s env hdup
  unfold capture_region
  have hno : ¬((l + w) % U32_MOD > s.output_width ∨
      (t + h) % U32_MOD > s.output_height) := by omega
  rw [if_neg hno]
  simp only [hci, hens]
  simp

/-- C5, counterexample: acquisition fails with the transient ACCESS_LOST
code and the session reinitialization succeeds, but the ROI-buffer
recreation that follows fails; the call then returns the allocation
failure, not a failure reporting the original acquisition error as the
claim states. -/
theorem c5_counterexample :
    isTransientCode DXGI_ERROR_ACCESS_LOST = true ∧
    (capture_region sInit envTransientAllocFail 0 0 10 10).1 =
      Except.error CaptureError.allocationError ∧
    (capture_region sInit envTransientAllocFail 0 0 10 10).1 ≠
      Except.error (CaptureError.acquireError DXGI_ERROR_ACCESS_LOST) := by
  refine ⟨by decide, by rfl, ?_⟩
  have hval : (capture_region sInit envTransientAllocFail 0 0 10 10).1 =
      Except.error CaptureError.allocationError := by rfl
  rw [hval]
  simp

/-- C5 (amended: when the ROI recreation after a successful
reinitialization fails, that allocation failure is propagated instead of
the original acquisition error).  For a call that reaches acquisition
(valid rectangle, session present, ROI step succeeded) and whose
acquisition fails with a recognized transient device-loss code: the
session is reinitialized in place exactly once (one initialization attempt
in the whole trace, never a loop); if the reinitialization and the ROI
recreation both succeed, the call still returns the original acquisition
failure while the final state holds the fresh session and a recreated ROI
texture (recovery takes effect only for the next call); if the
reinitialization itself fails, that failure is propagated and the session
is left with no handles; if only the ROI recreation fails, its allocation
error is propagated. -/
theorem c5_transient_recovery (s : DxgiCapture) (env : CapEnv)
    (left top width height code : Nat)
    (hin1 : (left + width) % U32_MOD ≤ s.output_width)
    (hin2 : (top + height) % U32_MOD ≤ s.output_height)
    (hdup : s.duplication.isSome)
    (hens : (ensure_roi_texture s env.createTexOk1 width height).1 =
      Except.ok ())
    (hacq : env.acquire = AcquireOutcome.err code)
    (ht : isTransientCode code = true) :
    ((initialize_duplication
          (ensure_roi_texture s env.createTexOk1 width height).2.1
          env.initEnv2).1 = Except.ok () →
      (ensure_roi_texture
          (initialize_duplication
            (ensure_roi_texture s env.createTexOk1 width height).2.1
            env.initEnv2).2.1 env.createTexOk2 width height).1 =
        Except.ok () →
      (capture_region s env left top width height).1 =
        Except.error (CaptureError.acquireError code) ∧
      (capture_region s env left top width height).2.1.duplication =
        some () ∧
      (capture_region s env left top width height).2.1.roi_texture =
        some ()) ∧
    (∀ e, (initialize_duplication
          (ensure_roi_texture s env.createTexOk1 width height).2.1
          env.initEnv2).1 = Except.error e →
      (capture_region s env left top width height).1 = Except.error e ∧
      (capture_region s env left top width height).2.1.duplication = none ∧
      (capture_region s env left top width height).2.1.d3d_device = none ∧
      (capture_region s env left top width height).2.1.d3d_context = none ∧
      (capture_region s env left top width height).2.1.dxgi_output5 = none) ∧
    (∀ e, (initialize_duplication
          (ensure_roi_texture s env.createTexOk1 width height).2.1
          env.initEnv2).1 = Except.ok () →
      (ensure_roi_texture
          (initialize_duplication
            (ensure_roi_texture s env.createTexOk1 width height).2.1
            env.initEnv2).2.1 env.createTexOk2 width height).1 =
        Except.error e →
      (capture_region s env left top width height).1 = Except.error e) ∧
    ((capture_region s env left top width height).2.2).count
      GpuEvent.initDuplication = 1 := by
  have hglue := capture_region_after_ensure s env left top width height
    hin1 hin2 hdup hens
  obtain ⟨hT1, hT2, hT3, hT4⟩ := acquirePhase_transient
    (ensure_roi_texture s env.createTexOk1 width height).2.1 env
    left top width height code hacq ht
  refine ⟨?_, ?_, ?_, ?_⟩
  · intro hio heo
    obtain ⟨ha, hb⟩ := hT1 hio heo
    simp only [hglue]
    refine ⟨ha, ?_, ?_⟩
    · rw [hb]
      rw [(ensure_roi_texture_preserves _ env.createTexOk2 width height).1]
      exact (initialize_duplication_ok_state _ env.initEnv2 hio).1
    · rw [hb]
      have hdev := (initialize_duplication_ok_state _ env.initEnv2 hio).2.1
      exact (ensure_roi_texture_ok_state _ env.createTexOk2 width height
        (by simp [hdev]) heo).1
  · intro e he
    obtain ⟨ha, hb⟩ := hT2 e he
    simp only [hglue]
    obtain ⟨hd1, hd2, hd3, hd4, _⟩ :=
      initialize_duplication_error_state _ env.initEnv2 e he
    exact ⟨ha, by rw [hb]; exact hd1, by rw [hb]; exact hd2,
      by rw [hb]; exact hd3, by rw [hb]; exact hd4⟩
  · intro e hio heo
    simp only [hglue]
    exact (hT3 e hio heo).1
  · simp only [hglue]
    simp [List.count_append, ensure_roi_texture_count_init, hT4]

/-- Witness for c5_transient_recovery: a 10×10 request on the fixture with
a transient ACCESS_LOST acquisition failure and a fully successful
recovery. -/
theorem c5_witness :
    (0 + 10) % U32_MOD ≤ sInit.output_width ∧
    (0 + 10) % U32_MOD ≤ sInit.output_height ∧
    sInit.duplication.isSome ∧
    (ensure_roi_texture sInit envTransient.createTexOk1 10 10).1 =
      Except.ok () ∧
    envTransient.acquire = AcquireOutcome.err DXGI_ERROR_ACCESS_LOST ∧
    isTransientCode DXGI_ERROR_ACCESS_LOST = true ∧
    ((capture_region sInit envTransient 0 0 10 10).1 =
        Except.error (CaptureError.acquireError DXGI_ERROR_ACCESS_LOST) ∧
      (capture_region sInit envTransient 0 0 10 10).2.1.duplication =
        some () ∧
      (capture_region sInit envTransient 0 0 10 10).2.1.roi_texture =
        some ()) ∧
    ((capture_region sInit envTransient 0 0 10 10).2.2).count
      GpuEvent.initDuplication = 1 := by
  refine ⟨by decide, by decide, by decide, by rfl, by rfl, by decide, ?_, ?_⟩
  · exact (c5_transient_recovery sInit envTransient 0 0 10 10
      DXGI_ERROR_ACCESS_LOST (by decide) (by decide) (by decide) (by rfl)
      (by rfl) (by decide)).1 (by rfl) (by rfl)
  · exact (c5_transient_recovery sInit envTransient 0 0 10 10
      DXGI_ERROR_ACCESS_LOST (by decide) (by decide) (by decide) (by rfl)
      (by rfl) (by decide)).2.2.2

/-- The readback phase never changes the engine state. -/
theorem readbackPhase_state (s : DxgiCapture) (env : CapEnv)
    (l t w h : Nat) : (readbackPhase s env l t w h).2.1 = s := by
  unfold readbackPhase
  repeat' split
  all_goals simp

theorem initialize_duplication_handleInv (s : DxgiCapture) (env : InitEnv) :
    handleInv ((initialize_duplication s env).2.1) := by
  rcases initialize_duplication_cases s env with hi | hi | hi | hi
  · obtain ⟨h1, h2, h3, h4, _, _, _⟩ := initialize_duplication_ok_state s env hi
    simp [handleInv, h1, h2, h3, h4]
  all_goals (
    obtain ⟨h1, h2, h3, h4, _⟩ := initialize_duplication_error_state s env _ hi
    simp [handleInv, h1, h2, h3, h4])

theorem ensure_roi_texture_handleInv (s : DxgiCapture) (ok : Bool)
    (w h : Nat) (hinv : handleInv s) :
    handleInv ((ensure_roi_texture s ok w h).2.1) := by
  obtain ⟨p1, p2, p3, p4, _, _, _⟩ := ensure_roi_texture_preserves s ok w h
  unfold handleInv at hinv ⊢
  rw [p1, p2, p3, p4]
  exact hinv

theorem captureInit_handleInv (s : DxgiCapture) (env : CapEnv)
    (hinv : handleInv s) : handleInv ((captureInit s env).2.1) := by
  unfold captureInit
  by_cases hd : s.duplication.isNone = true
  · rw [if_pos hd]
    exact initialize_duplication_handleInv s env.initEnv1
  · rw [if_neg hd]
    exact hinv

theorem acquirePhase_handleInv (s : DxgiCapture) (env : CapEnv)
    (l t w h : Nat) (hinv : handleInv s) :
    handleInv ((acquirePhase s env l t w h).2.1) := by
  unfold acquirePhase
  cases hacq : env.acquire with
  | okSome =>
      have hr : handleInv ((readbackPhase s env l t w h).2.1) := by
        rw [readbackPhase_state]
        exact hinv
      exact hr
  | okNone => exact hinv
  | err code =>
      by_cases ht : isTransientCode code = true
      · simp only [ht, if_true]
        rcases initialize_duplication_cases s env.initEnv2 with hi | hi | hi | hi
        · simp only [hi]
          rcases ensure_roi_texture_cases
              (initialize_duplication s env.initEnv2).2.1 env.createTexOk2 w h
            with he | he
          · simp only [he]
            exact ensure_roi_texture_handleInv _ env.createTexOk2 w h
              (initialize_duplication_handleInv s env.initEnv2)
          · simp only [he]
            exact ensure_roi_texture_handleInv _ env.createTexOk2 w h
              (initialize_duplication_handleInv s env.initEnv2)
        all_goals (
          simp only [hi]
          exact initialize_duplication_handleInv s env.initEnv2)
      · have htf : isTransientCode code = false := by
          cases hc : isTransientCode code <;> simp_all
        simp only [htf]
        simp only [Bool.false_eq_true, if_false]
        exact hinv

theorem capture_region_handleInv (s : DxgiCapture) (env : CapEnv)
    (l t w h : Nat) (hinv : handleInv s) :
    handleInv ((capture_region s env l t w h).2.1) := by
  unfold capture_region
  split
  · exact hinv
  · have h1 := captureInit_handleInv s env hinv
    rcases captureInit_cases s env with hi | hi | hi | hi
    · simp only [hi]
      have h2 := ensure_roi_texture_handleInv (captureInit s env).2.1
        env.createTexOk1 w h h1
      rcases ensure_roi_texture_cases (captureInit s env).2.1
          env.createTexOk1 w h with he | he
      · simp only [he]
        exact acquirePhase_handleInv _ env l t w h h2
      · simp only [he]
        exact h2
    all_goals (
      simp only [hi]
      exact h1)

/-- C6, counterexample: from a fully initialized 1920×1080 session, a
transient acquisition failure triggers reinitialization; the new output's
2560-wide dimensions are written into the state before duplication is
attempted, and the format negotiation then fails, leaving a visible state
in which every session handle is absent while output_width already holds
the new output's value — the session fields were not replaced as one
group, so the claimed atomicity of (re)initialization fails. -/
theorem c6_counterexample :
    sInit.output_width = 1920 ∧
    (capture_region sInit envTransientReinitNoFormat 0 0 10 10).2.1.duplication
      = none ∧
    (capture_region sInit envTransientReinitNoFormat 0 0 10 10).2.1.output_width
      = 2560 := by
  exact ⟨by decide, by rfl, by rfl⟩

/-- C6 (amended: the atomic group is the four handles, not the output
dimensions).  In every reachable state the duplication handle exists iff
the device, context and output handles do: the invariant holds of the blank
initial state, is establishment unconditional for (re)initialization — even
a failed one leaves all four handles absent — is preserved by teardown, the
ROI step and every capture call.  The exposed output_width/output_height
and the chosen format, however, are not part of the atomic group: teardown
leaves them untouched, and a failed reinitialization can have already
overwritten the output dimensions (see the counterexample). -/
theorem c6_handle_group :
    (∀ s env l t w h, handleInv s →
      handleInv ((capture_region s env l t w h).2.1)) ∧
    (∀ s env, handleInv ((initialize_duplication s env).2.1)) ∧
    (∀ s, handleInv (release_resources s)) ∧
    handleInv initialState ∧
    (∀ s ok w h, handleInv s → handleInv ((ensure_roi_texture s ok w h).2.1)) ∧
    (∀ s, (release_resources s).output_width = s.output_width ∧
      (release_resources s).output_height = s.output_height ∧
      (release_resources s).chosen_format = s.chosen_format) := by
  refine ⟨capture_region_handleInv, initialize_duplication_handleInv,
    ?_, ?_, ensure_roi_texture_handleInv, ?_⟩
  · intro s
    simp [handleInv, release_resources]
  · simp [handleInv, initialState]
  · intro s
    exact ⟨rfl, rfl, rfl⟩

/-- Witness for c6_handle_group: the invariant holds of the initialized
fixture and is preserved by a capture call whose recovery
reinitialization fails partway through. -/
theorem c6_witness :
    handleInv sInit ∧
    handleInv ((capture_region sInit envTransientReinitNoFormat 0 0 10 10).2.1) := by
  have hinv : handleInv sInit := ⟨Iff.rfl, Iff.rfl, Iff.rfl⟩
  exact ⟨hinv,
    c6_handle_group.1 sInit envTransientReinitNoFormat 0 0 10 10 hinv⟩

/-- The readback path performs no staging allocation. -/
theorem readbackPhase_noCreate (s : DxgiCapture) (env : CapEnv)
    (l t w h : Nat) :
    ((readbackPhase s env l t w h).2.2).countP isCreateTex = 0 := by
  unfold readbackPhase
  repeat' split
  all_goals simp [isCreateTex, List.countP_cons, List.countP_append]

/-- A successful acquire phase leaves the engine state unchanged. -/
theorem acquirePhase_ok_state (s : DxgiCapture) (env : CapEnv)
    (l t w h : Nat) (buf : List Nat)
    (hok : (acquirePhase s env l t w h).1 = Except.ok buf) :
    (acquirePhase s env l t w h).2.1 = s := by
  unfold acquirePhase at hok ⊢
  cases hacq : env.acquire with
  | okSome =>
      simp only [hacq]
      exact readbackPhase_state s env l t w h
  | okNone =>
      simp only [hacq]
  | err code =>
      simp only [hacq] at hok
      by_cases ht : isTransientCode code = true
      · rw [if_pos ht] at hok
        rcases initialize_duplication_cases s env.initEnv2 with hi | hi | hi | hi
        · simp only [hi] at hok
          rcases ensure_roi_texture_cases
              (initialize_duplication s env.initEnv2).2.1 env.createTexOk2 w h
            with he | he <;> simp [he] at hok
        · simp [hi] at hok
        · simp [hi] at hok
        · simp [hi] at hok
      · rw [if_neg ht] at hok
        simp at hok

/-- A successful acquire phase performs no staging allocation. -/
theorem acquirePhase_ok_noCreate (s : DxgiCapture) (env : CapEnv)
    (l t w h : Nat) (buf : List Nat)
    (hok : (acquirePhase s env l t w h).1 = Except.ok buf) :
    ((acquirePhase s env l t w h).2.2).countP isCreateTex = 0 := by
  unfold acquirePhase at hok ⊢
  cases hacq : env.acquire with
  | okSome =>
      simp only [hacq]
      have hrb := readbackPhase_noCreate s env l t w h
      simp [List.countP_cons, isCreateTex, hrb]
  | okNone =>
      simp only [hacq]
      by_cases hd : s.duplication.isSome = true <;>
        simp [hd, List.countP_cons, isCreateTex]
  | err code =>
      simp only [hacq] at hok
      by_cases ht : isTransientCode code = true
      · rw [if_pos ht] at hok
        rcases initialize_duplication_cases s env.initEnv2 with hi | hi | hi | hi
        · simp only [hi] at hok
          rcases ensure_roi_texture_cases
              (initialize_duplication s env.initEnv2).2.1 env.createTexOk2 w h
            with he | he <;> simp [he] at hok
        · simp [hi] at hok
        · simp [hi] at hok
        · simp [hi] at hok
      · rw [if_neg ht] at hok
        simp at hok

/-- Anatomy of a successful capture call from a state with a live session:
the ROI step succeeded, the final state is the post-ROI state, the trace is
the ROI trace followed by the acquire-phase trace, and the acquire phase
itself succeeded with the same buffer. -/
theorem capture_region_ok_anatomy (s : DxgiCapture) (env : CapEnv)
    (l t w h : Nat) (buf : List Nat)
    (hdup : s.duplication.isSome)
    (hok : (capture_region s env l t w h).1 = Except.ok buf) :
    (ensure_roi_texture s env.createTexOk1 w h).1 = Except.ok () ∧
    (capture_region s env l t w h).2.1 =
      (ensure_roi_texture s env.createTexOk1 w h).2.1 ∧
    (capture_region s env l t w h).2.2 =
      (ensure_roi_texture s env.createTexOk1 w h).2.2 ++
        (acquirePhase (ensure_roi_texture s env.createTexOk1 w h).2.1
          env l t w h).2.2 ∧
    (acquirePhase (ensure_roi_texture s env.createTexOk1 w h).2.1
      env l t w h).1 = Except.ok buf := by
  have hci := captureInit_of_present s env hdup
  by_cases hval : ((l + w) % U32_MOD > s.output_width ∨
      (t + h) % U32_MOD > s.output_height)
  · exfalso
    unfold capture_region at hok
    rw [if_pos hval] at hok
    simp at hok
  · have hin1 : (l + w) % U32_MOD ≤ s.output_width := by omega
    have hin2 : (t + h) % U32_MOD ≤ s.output_height := by omega
    have hens : (ensure_roi_texture s env.createTexOk1 w h).1 =
        Except.ok () := by
      rcases ensure_roi_texture_cases s env.createTexOk1 w h with he | he
      · exact he
      · exfalso
        unfold capture_region at hok
        rw [if_neg hval] at hok
        simp only [hci, he] at hok
        simp at hok
    have hglue := capture_region_after_ensure s env l t w h hin1 hin2 hdup hens
    have hacqok : (acquirePhase
        (ensure_roi_texture s env.createTexOk1 w h).2.1 env l t w h).1 =
        Except.ok buf := by
      rw [hglue] at hok
      exact hok
    refine ⟨hens, ?_, ?_, hacqok⟩
    · rw [hglue]
      exact acquirePhase_ok_state _ env l t w h buf hacqok
    · rw [hglue]

/-- The no-op branch of `ensure_roi_texture` (src/capture.rs lines
141-145). -/
theorem ensure_roi_texture_noop (s : DxgiCapture) (ok : Bool) (w h : Nat)
    (h1 : s.roi_texture.isSome) (h2 : s.roi_cached_width = w)
    (h3 : s.roi_cached_height = h) :
    ensure_roi_texture s ok w h = (Except.ok (), s, []) := by
  unfold ensure_roi_texture
  rw [if_pos ⟨h1, h2, h3⟩]

/-- The reallocation branch of `ensure_roi_texture`: a size mismatch drops
the old texture and allocates exactly once, updating the cache. -/
theorem ensure_roi_texture_realloc (s : DxgiCapture) (w h : Nat)
    (hdev : s.d3d_device = some ())
    (hneq : ¬(s.roi_cached_width = w ∧ s.roi_cached_height = h)) :
    ensure_roi_texture s true w h =
      (Except.ok (),
        { s with roi_texture := some (), roi_cached_width := w,
                 roi_cached_height := h },
        [GpuEvent.createTexture w h]) := by
  cases hr : s.roi_texture <;>
    by_cases hw : s.roi_cached_width = w <;>
    by_cases hh : s.roi_cached_height = h <;>
    simp_all [ensure_roi_texture]

/-- C7: (a) if the staging texture exists and its cached dimensions equal
the requested (width, height), ensure_roi_texture is a no-op — same state,
no events, no reallocation; (b) consequently, a successful capture call
that follows a successful capture call with identical (width, height)
performs no staging allocation at all; (c) a request whose (width, height)
differs from the cached dimensions drops the old buffer and allocates a
new one exactly once, updating the cached dimensions. -/
theorem c7_staging_reuse :
    (∀ s ok w h, s.roi_texture.isSome → s.roi_cached_width = w →
      s.roi_cached_height = h →
      ensure_roi_texture s ok w h = (Except.ok (), s, [])) ∧
    (∀ s env1 env2 l t w h l2 t2 buf buf2,
      s.duplication.isSome → s.d3d_device.isSome →
      (capture_region s env1 l t w h).1 = Except.ok buf →
      (capture_region ((capture_region s env1 l t w h).2.1) env2
        l2 t2 w h).1 = Except.ok buf2 →
      ((capture_region ((capture_region s env1 l t w h).2.1) env2
        l2 t2 w h).2.2).countP isCreateTex = 0) ∧
    (∀ s w h, s.d3d_device = some () →
      ¬(s.roi_cached_width = w ∧ s.roi_cached_height = h) →
      ensure_roi_texture s true w h =
        (Except.ok (),
          { s with roi_texture := some (), roi_cached_width := w,
                   roi_cached_height := h },
          [GpuEvent.createTexture w h])) := by
  refine ⟨ensure_roi_texture_noop, ?_, ensure_roi_texture_realloc⟩
  intro s env1 env2 l t w h l2 t2 buf buf2 hdup hdev hok1 hok2
  obtain ⟨he1, hs1, _, _⟩ :=
    capture_region_ok_anatomy s env1 l t w h buf hdup hok1
  have hroi := ensure_roi_texture_ok_state s env1.createTexOk1 w h hdev he1
  have hpres := ensure_roi_texture_preserves s env1.createTexOk1 w h
  have hdup2 : ((capture_region s env1 l t w h).2.1).duplication.isSome := by
    rw [hs1, hpres.1]
    exact hdup
  obtain ⟨he2, hs2, htr2, ha2⟩ :=
    capture_region_ok_anatomy _ env2 l2 t2 w h buf2 hdup2 hok2
  have hnoop : ensure_roi_texture ((capture_region s env1 l t w h).2.1)
      env2.createTexOk1 w h =
      (Except.ok (), (capture_region s env1 l t w h).2.1, []) := by
    apply ensure_roi_texture_noop
    · rw [hs1]
      simp [hroi.1]
    · rw [hs1]
      exact hroi.2.1
    · rw [hs1]
      exact hroi.2.2
  rw [htr2, List.countP_append]
  have h0 : ((ensure_roi_texture ((capture_region s env1 l t w h).2.1)
      env2.createTexOk1 w h).2.2).countP isCreateTex = 0 := by
    rw [hnoop]
    rfl
  have h1 := acquirePhase_ok_noCreate _ env2 l2 t2 w h buf2 ha2
  rw [h0, h1]

/-- Witness for c7_staging_reuse: the no-op reuse on the 10×10 fixture,
two consecutive successful 10×10 captures with zero allocations, and a
5×5 mismatch reallocating exactly once. -/
theorem c7_witness :
    (sInit.roi_texture.isSome ∧ sInit.roi_cached_width = 10 ∧
      sInit.roi_cached_height = 10 ∧
      ensure_roi_texture sInit envHappy.createTexOk1 10 10 =
        (Except.ok (), sInit, [])) ∧
    (sInit.duplication.isSome ∧ sInit.d3d_device.isSome ∧
      (capture_region sInit envHappy 0 0 10 10).1 =
        Except.ok ((List.range 10).flatMap (fun y =>
          (List.range 40).map (fun x => (y * 64 + x) % 251))) ∧
      (capture_region ((capture_region sInit envHappy 0 0 10 10).2.1)
          envNoFrame 0 0 10 10).1 =
        Except.ok (List.replicate (10 * 10 * 4) 0) ∧
      ((capture_region ((capture_region sInit envHappy 0 0 10 10).2.1)
          envNoFrame 0 0 10 10).2.2).countP isCreateTex = 0) ∧
    (sInit.d3d_device = some () ∧
      ¬(sInit.roi_cached_width = 5 ∧ sInit.roi_cached_height = 5) ∧
      ensure_roi_texture sInit true 5 5 =
        (Except.ok (),
          { sInit with roi_texture := some (), roi_cached_width := 5,
                       roi_cached_height := 5 },
          [GpuEvent.createTexture 5 5])) := by
  refine ⟨⟨by decide, by decide, by decide, ?_⟩,
    ⟨by decide, by decide, by rfl, by rfl, ?_⟩,
    ⟨by decide, by decide, ?_⟩⟩
  · exact c7_staging_reuse.1 sInit envHappy.createTexOk1 10 10
      (by decide) (by decide) (by decide)
  · exact c7_staging_reuse.2.1 sInit envHappy envNoFrame 0 0 10 10 0 0
      ((List.range 10).flatMap (fun y =>
        (List.range 40).map (fun x => (y * 64 + x) % 251)))
      (List.replicate (10 * 10 * 4) 0)
      (by decide) (by decide) (by rfl) (by rfl)
  · exact c7_staging_reuse.2.2 sInit 5 5 (by decide) (by decide)

/-- C8: session initialization tries the candidate formats in the fixed
order B8G8R8A8_UNORM, then R8G8B8A8_UNORM, then R16G16B16A16_FLOAT; when
the device / output chain succeeds, initialization succeeds exactly when
some candidate is accepted, keeping the first accepted format (first
success wins, expressed through List.find? over the fixed candidate list),
and fails with the duplication error when no candidate is accepted.  The
format is determined at initialization only: the ROI step and the readback
never change it, and the capture interface passes no format. -/
theorem c8_format_negotiation :
    supported_formats = [DXGI_FORMAT.B8G8R8A8_UNORM,
      DXGI_FORMAT.R8G8B8A8_UNORM, DXGI_FORMAT.R16G16B16A16_FLOAT] ∧
    (∀ s env, env.createDeviceOk = true → env.castDeviceOk = true →
      env.getAdapterOk = true → env.enumOutputsOk = true →
      env.castOutput5Ok = true → env.getDescOk = true →
      ((∀ fmt, supported_formats.find? env.duplAccepts = some fmt →
        (initialize_duplication s env).1 = Except.ok () ∧
        ((initialize_duplication s env).2.1).chosen_format = fmt) ∧
       (supported_formats.find? env.duplAccepts = none →
        (initialize_duplication s env).1 =
          Except.error CaptureError.duplicationError))) ∧
    (∀ s ok w h, ((ensure_roi_texture s ok w h).2.1).chosen_format =
      s.chosen_format) ∧
    (∀ s env l t w h, ((readbackPhase s env l t w h).2.1).chosen_format =
      s.chosen_format) := by
  refine ⟨rfl, ?_, ?_, ?_⟩
  · intro s env h1 h2 h3 h4 h5 h6
    unfold initialize_duplication
    rw [if_neg (by simp [h1]), if_neg (by simp [h2]), if_neg (by simp [h3]),
      if_neg (by simp [h4]), if_neg (by simp [h5]), if_neg (by simp [h6])]
    constructor
    · intro fmt hfind
      rw [← tryFormats_fst] at hfind
      simp only [hfind]
      exact ⟨by trivial, by trivial⟩
    · intro hnone
      rw [← tryFormats_fst] at hnone
      simp only [hnone]
  · intro s ok w h
    exact (ensure_roi_texture_preserves s ok w h).2.2.2.2.2.2
  · intro s env l t w h
    rw [readbackPhase_state]

/-- Witness for c8_format_negotiation: an output that accepts only the
second candidate negotiates exactly R8G8B8A8_UNORM, and an output that
accepts nothing makes initialization fail with the duplication error. -/
theorem c8_witness :
    envInitR8.createDeviceOk = true ∧ envInitR8.castDeviceOk = true ∧
    envInitR8.getAdapterOk = true ∧ envInitR8.enumOutputsOk = true ∧
    envInitR8.castOutput5Ok = true ∧ envInitR8.getDescOk = true ∧
    supported_formats.find? envInitR8.duplAccepts =
      some DXGI_FORMAT.R8G8B8A8_UNORM ∧
    ((initialize_duplication sInit envInitR8).1 = Except.ok () ∧
      ((initialize_duplication sInit envInitR8).2.1).chosen_format =
        DXGI_FORMAT.R8G8B8A8_UNORM) ∧
    supported_formats.find? envInitNoFormat.duplAccepts = none ∧
    (initialize_duplication sInit envInitNoFormat).1 =
      Except.error CaptureError.duplicationError := by
  refine ⟨rfl, rfl, rfl, rfl, rfl, rfl, by decide, ?_, by decide, ?_⟩
  · exact (c8_format_negotiation.2.1 sInit envInitR8
      rfl rfl rfl rfl rfl rfl).1 DXGI_FORMAT.R8G8B8A8_UNORM (by decide)
  · exact (c8_format_negotiation.2.1 sInit envInitNoFormat
      rfl rfl rfl rfl rfl rfl).2 (by decide)

/-- On a state with no staging texture and a live device, the ROI step
always attempts exactly one allocation. -/
theorem ensure_roi_texture_forced_alloc (s : DxgiCapture) (ok : Bool)
    (w h : Nat) (hroi : s.roi_texture = none)
    (hdev : s.d3d_device = some ()) :
    ((ensure_roi_texture s ok w h).2.2) = [GpuEvent.createTexture w h] := by
  cases ok <;> simp_all [ensure_roi_texture]

/-- C9: every successful session (re)initialization drops the old staging
buffer and resets the cached ROI dimensions to the absent state, so any
first region request after a reinitialization is forced to perform a
staging allocation against the new session. -/
theorem c9_reinit_resets_roi (s : DxgiCapture) (env : InitEnv)
    (hok : (initialize_duplication s env).1 = Except.ok ()) :
    ((initialize_duplication s env).2.1).roi_texture = none ∧
    ((initialize_duplication s env).2.1).roi_cached_width = 0 ∧
    ((initialize_duplication s env).2.1).roi_cached_height = 0 ∧
    (∀ w h ok2,
      ((ensure_roi_texture ((initialize_duplication s env).2.1) ok2
        w h).2.2) = [GpuEvent.createTexture w h]) := by
  obtain ⟨_, hdev, _, _, hroi, hcw, hch⟩ :=
    initialize_duplication_ok_state s env hok
  exact ⟨hroi, hcw, hch,
    fun w h ok2 => ensure_roi_texture_forced_alloc _ ok2 w h hroi hdev⟩

/-- Witness for c9_reinit_resets_roi: a successful reinitialization of the
fixture, followed by a forced 7×5 staging allocation. -/
theorem c9_witness :
    (initialize_duplication sInit envInitOk).1 = Except.ok () ∧
    (((initialize_duplication sInit envInitOk).2.1).roi_texture = none ∧
      ((initialize_duplication sInit envInitOk).2.1).roi_cached_width = 0 ∧
      ((initialize_duplication sInit envInitOk).2.1).roi_cached_height = 0 ∧
      ((ensure_roi_texture ((initialize_duplication sInit envInitOk).2.1)
        true 7 5).2.2) = [GpuEvent.createTexture 7 5]) := by
  refine ⟨by rfl, ?_⟩
  obtain ⟨h1, h2, h3, h4⟩ := c9_reinit_resets_roi sInit envInitOk (by rfl)
  exact ⟨h1, h2, h3, h4 7 5 true⟩

end DxgiScreenGrab
